import Mathlib

/-!
Shallow embedding of the PaGraph example driver
src/examples/gcn_client_nccl_ns.py (a multi-process GCN
neighbor-sampling training script) and proofs about it.

The script is orchestration glue: it sequences calls into the tensor
framework and the graph library.  We embed it as a generator of an
explicit trace of framework calls (with their argument payloads), plus
pure functions for the small computations the script performs itself
(index extraction from masks, basename of a path, comma splitting of
the GPU flag, the epoch-time average).  External framework behaviour
(sampling, autodiff, collectives) is opaque; what the script passes to
the framework, and in which order, is what we verify.
-/

namespace GcnClient

/-- Parsed command-line arguments of the script (argparse block,
lines 129-157 of the source).  Float-valued flags (dropout, lr,
weight decay) are modelled as rationals; the claims about them only
concern passing the parsed value through unchanged. -/
structure Args where
  gpu : String
  dataset : String
  feat_size : Nat
  dropout : Rat
  n_hidden : Nat
  n_layers : Nat
  lr : Rat
  n_epochs : Nat
  batch_size : Nat
  weight_decay : Rat
  num_neighbors : Nat
deriving DecidableEq

/-- Python exceptions that the embedding distinguishes. -/
inductive PyError where
  | nameError (n : String)
  | runtimeErr (msg : String)
deriving DecidableEq

/-- Arguments of the GCNSampling model constructor
(source lines 51-56). -/
structure GCNSamplingCtor where
  in_feats : Nat
  n_hidden : Nat
  n_classes : Nat
  n_layers : Nat
  activation : String
  dropout : Rat
deriving DecidableEq

/-- Arguments of the Adam optimizer constructor (source lines 58-60). -/
structure AdamCtor where
  lr : Rat
  weight_decay : Rat
deriving DecidableEq

/-- Arguments of a dgl.contrib.sampling.NeighborSampler call
(source lines 72-79 for training, 111-116 for inference). -/
structure SamplerConfig where
  batchSize : Nat
  expandFactor : Nat
  neighborType : String
  shuffle : Bool
  numWorkers : Nat
  numHops : Nat
  seedNodes : List Int
  prefetch : Bool
deriving DecidableEq

/-- One observable framework call made by the script, with the
argument payloads relevant to the claims.  The constructors
storeWrite and buildGraphLocal never occur in any trace the script
generates; they are present so that their absence is a statement and
not a tautology of the event alphabet. -/
inductive Event where
  | setEnv (key v : String)
  | initProcessGroup (backend : String) (rank world : Nat)
  | setCudaDevice (d : Nat)
  | manualSeed (s : Nat)
  | printLaunch (r : Nat)
  | attachStore (storeName storeKind : String)
  | storeWrite (storeName : String)
  | buildGraphLocal
  | buildModel (c : GCNSamplingCtor)
  | buildOptimizer (c : AdamCtor)
  | modelCuda (d : Nat)
  | wrapDDP (d : Nat)
  | modelTrain
  | createSampler (cfg : SamplerConfig)
  | copyFromParent (d : Nat)
  | gatherLabels (layer : Int)
  | labelCuda (d : Nat)
  | forwardPass
  | computeLoss
  | zeroGrad
  | backwardPass
  | optimizerStep
  | printStepLoss (epoch step : Nat)
  | printEpochTime (v : Option Rat)
  | modelEval
  | inferForward
  | accumulateAccuracy
  | printTestAccuracy
deriving DecidableEq

/-- numpy astype(np.int64): reduction of a natural index into a signed
64-bit integer (two's complement wrap-around). -/
def int64ofNat (n : Nat) : Int := Int.bmod (n : Int) (2 ^ 64)

/-- numpy np.nonzero(mask)[0]: the indices of the nonzero entries of a
one-dimensional array, in increasing order. -/
def nonzeroIdx (mask : List Int) : List Nat :=
  (List.range mask.length).filter (fun i => mask.getD i 0 ≠ 0)

/-- train_nid / test_nid (source lines 42-43): nonzero indices of a
mask, converted to 64-bit integers. -/
def maskNid (mask : List Int) : List Int :=
  (nonzeroIdx mask).map int64ofNat

/-- os.path.basename for POSIX paths: the part after the last slash. -/
def basename (p : String) : String := (p.splitOn "/").getLastD ""

/-- np.mean of a list: NaN (modelled as none) on the empty list,
otherwise the arithmetic mean. -/
def npMean (l : List Rat) : Option Rat :=
  if l = [] then none else some (l.sum / (l.length : Rat))

/-- Inputs of a trainer process that the script reads from the outside
world (the shared graph store and the PaGraph data files): the three
masks, the number of label classes, the graph size, and the values the
opaque framework supplies during the run (how many mini-batches each
sampler produces, the measured epoch durations). -/
structure TrainerIn where
  trainMask : List Int
  valMask : List Int
  testMask : List Int
  nClasses : Nat
  numNodes : Nat
  nTrainBatches : Nat → Nat
  nTestBatches : Nat
  epochDur : Nat → Rat

/-- init_process (source lines 23-29): set the rendezvous address and
port in the environment, initialize the process group, pin the CUDA
device to the rank, seed the RNG with the rank, print a message. -/
def initProcessTrace (rank world : Nat) (backend : String) : List Event :=
  [Event.setEnv "MASTER_ADDR" "127.0.0.1",
   Event.setEnv "MASTER_PORT" "29501",
   Event.initProcessGroup backend rank world,
   Event.setCudaDevice rank,
   Event.manualSeed rank,
   Event.printLaunch rank]

/-- The GCNSampling constructor call of the script (lines 51-56):
every argument is the parsed flag, the class count, or F.relu. -/
def gcnSamplingCtor (args : Args) (nClasses : Nat) : GCNSamplingCtor :=
  { in_feats := args.feat_size
    n_hidden := args.n_hidden
    n_classes := nClasses
    n_layers := args.n_layers
    activation := "relu"
    dropout := args.dropout }

/-- The Adam constructor call of the script (lines 58-60). -/
def adamCtor (args : Args) : AdamCtor :=
  { lr := args.lr, weight_decay := args.weight_decay }

/-- The training NeighborSampler call (lines 72-79). -/
def trainSamplerCfg (args : Args) (trainMask : List Int) : SamplerConfig :=
  { batchSize := args.batch_size
    expandFactor := args.num_neighbors
    neighborType := "in"
    shuffle := true
    numWorkers := 8
    numHops := args.n_layers + 1
    seedNodes := maskNid trainMask
    prefetch := true }

/-- The inference NeighborSampler call (lines 111-116): the expansion
factor is the total node count of the graph, the seeds are the test
ids, and shuffle/prefetch are left at their defaults (off). -/
def testSamplerCfg (args : Args) (testMask : List Int) (numNodes : Nat) :
    SamplerConfig :=
  { batchSize := args.batch_size
    expandFactor := numNodes
    neighborType := "in"
    shuffle := false
    numWorkers := 32
    numHops := args.n_layers + 1
    seedNodes := maskNid testMask
    prefetch := false }

/-- The body of one training mini-batch (lines 80-96): copy the node
flow from the parent graph to the device, read the final-layer parent
node ids and gather their labels, move them to the GPU, forward,
loss, zero gradients, backward, optimizer step; then, on rank 0 only
(step % 1 == 0 is always true), print the step loss. -/
def coreBatchEvents (rank : Nat) : List Event :=
  [Event.copyFromParent rank,
   Event.gatherLabels (-1),
   Event.labelCuda rank,
   Event.forwardPass,
   Event.computeLoss,
   Event.zeroGrad,
   Event.backwardPass,
   Event.optimizerStep]

/-- One training mini-batch: the computation steps of lines 80-90,
then the conditional step-loss print of lines 94-96. -/
def batchTrace (rank epoch b : Nat) : List Event :=
  coreBatchEvents rank
  ++ (if rank = 0 ∧ (b + 1) % 1 = 0
      then [Event.printStepLoss (epoch + 1) (b + 1)] else [])

/-- One epoch of the training loop (lines 68-99): switch the model to
training mode, build the sampler over the training ids, run every
mini-batch, and, on rank 0 only, append the epoch duration and print
the mean of the recorded durations with the first two dropped. -/
def epochTrace (rank : Nat) (args : Args) (inp : TrainerIn) (epoch : Nat) :
    List Event :=
  Event.modelTrain
    :: Event.createSampler (trainSamplerCfg args inp.trainMask)
    :: ((List.range (inp.nTrainBatches epoch)).flatMap (batchTrace rank epoch))
  ++ (if rank = 0 then
        [Event.printEpochTime
          (npMean (((List.range (epoch + 1)).map inp.epochDur).drop 2))]
      else [])

/-- range(args.n_epochs): the loop bound of the epoch loop (line 68). -/
def epochsBound (args : Args) : Nat := args.n_epochs

/-- Everything the trainer does before its epoch loop (lines 33-63):
process initialization, attaching to the shared-memory graph store
under the basename of the dataset path, model and optimizer
construction, moving the model to the device and wrapping it in
DistributedDataParallel. -/
def trainerPre (rank world : Nat) (args : Args) (inp : TrainerIn) :
    List Event :=
  initProcessTrace rank world "nccl"
  ++ [Event.attachStore (basename args.dataset) "shared_mem",
      Event.buildModel (gcnSamplingCtor args inp.nClasses),
      Event.buildOptimizer (adamCtor args),
      Event.modelCuda rank,
      Event.wrapDDP rank]

/-- The whole training loop (lines 68-99). -/
def trainLoop (rank : Nat) (args : Args) (inp : TrainerIn) : List Event :=
  (List.range (epochsBound args)).flatMap (epochTrace rank args inp)

/-- Names bound in the scope that the post-training inference block
(lines 101-125) executes in: the trainer's parameters and local
assignments, plus the module-level imports.  Neither in_feats nor
n_test_samples, both referenced by the block, is among them. -/
def trainerScope : List String :=
  ["os", "sys", "module_name", "modpath", "argparse", "time", "torch",
   "nn", "dist", "mp", "F", "np", "dgl", "GCNSampling", "GCNInfer",
   "data",
   "rank", "world_size", "args", "backend",
   "dataname", "g", "labels", "n_classes",
   "train_mask", "val_mask", "test_mask", "train_nid", "test_nid",
   "model", "loss_fcn", "optimizer", "ctx",
   "epoch_dur", "batch_dur", "epoch", "epoch_start_time", "step",
   "nf", "batch_start_time", "batch_nids", "label", "pred",
   "infer_model", "infer_param", "param", "num_acc", "batch_labels"]

/-- Python name resolution: a NameError when the name is not bound. -/
def pyLookup (env : List String) (n : String) : Except PyError Unit :=
  if n ∈ env then Except.ok () else Except.error (PyError.nameError n)

/-- The rank-0 post-training inference block (lines 101-125).  Its
first statement constructs GCNInfer(in_feats, ...), so the name
in_feats is evaluated before anything else; the final print evaluates
n_test_samples.  On success the block would build the test sampler,
run every test mini-batch in eval mode under no_grad, accumulate the
accuracy, and print it. -/
def inferenceBlock (args : Args) (inp : TrainerIn) :
    Except PyError (List Event) :=
  match pyLookup trainerScope "in_feats" with
  | Except.error e => Except.error e
  | Except.ok _ =>
      let evs := Event.createSampler
          (testSamplerCfg args inp.testMask inp.numNodes)
        :: (List.range inp.nTestBatches).flatMap
            (fun _ => [Event.copyFromParent 0, Event.modelEval,
                       Event.inferForward, Event.gatherLabels (-1),
                       Event.accumulateAccuracy])
      match pyLookup trainerScope "n_test_samples" with
      | Except.error e => Except.error e
      | Except.ok _ => Except.ok (evs ++ [Event.printTestAccuracy])

/-- The trace of one trainer process (lines 31-125) together with the
uncaught exception it ends with, if any: initialization and setup,
the epoch loop, and, on rank 0, the inference block. -/
def trainerTrace (rank world : Nat) (args : Args) (inp : TrainerIn) :
    List Event × Option PyError :=
  let pre := trainerPre rank world args inp ++ trainLoop rank args inp
  if rank = 0 then
    match inferenceBlock args inp with
    | Except.error e => (pre, some e)
    | Except.ok evs => (pre ++ evs, none)
  else (pre, none)

/-- Python str.split on a one-character separator, on the character
list: splitting the empty string gives one (empty) entry, and each
separator occurrence opens a new entry. -/
def splitCommaAux : List Char → List (List Char)
  | [] => [[]]
  | c :: cs =>
    if c = ',' then [] :: splitCommaAux cs
    else
      match splitCommaAux cs with
      | [] => [[c]]
      | r :: rs => (c :: r) :: rs

/-- The comma-separated entries of the gpu flag, as Python computes
them with split on a comma. -/
def commaSplit (s : String) : List String :=
  (splitCommaAux s.toList).map String.mk

/-- gpu_num (line 160): the number of comma-separated entries of the
gpu flag. -/
def gpuNum (args : Args) : Nat := (commaSplit args.gpu).length

/-- mp.spawn(trainer, args=(gpu_num, args), nprocs=gpu_num)
(line 162): the ranks of the spawned trainer processes. -/
def spawnedProcs (args : Args) : List Nat := List.range (gpuNum args)

/-- A concrete argument record used to instantiate theorems with
hypotheses at explicit inputs. -/
def argsEx : Args :=
  { gpu := "0,1"
    dataset := "/data/webgraph"
    feat_size := 300
    dropout := 1 / 2
    n_hidden := 32
    n_layers := 1
    lr := 3 / 100
    n_epochs := 1
    batch_size := 2
    weight_decay := 1 / 2000
    num_neighbors := 2 }

/-- A concrete trainer input used to instantiate theorems with
hypotheses at explicit inputs. -/
def inpEx : TrainerIn :=
  { trainMask := [1, 0, 1]
    valMask := [0, 1, 0]
    testMask := [0, 0, 1]
    nClasses := 2
    numNodes := 3
    nTrainBatches := fun _ => 1
    nTestBatches := 1
    epochDur := fun _ => 1 }

/-- A trainer input whose training and test masks overlap at node 0:
nothing in the script prevents this. -/
def inpOverlap : TrainerIn :=
  { trainMask := [1]
    valMask := [0]
    testMask := [1]
    nClasses := 1
    numNodes := 1
    nTrainBatches := fun _ => 1
    nTestBatches := 1
    epochDur := fun _ => 1 }

/-- setEnv events of a trace. -/
def Event.isSetEnv : Event → Bool
  | Event.setEnv _ _ => true
  | _ => false

/-- Events that belong to the training loop proper (sampler
construction and the per-batch computation). -/
def Event.isTrainingStep : Event → Bool
  | Event.modelTrain => true
  | Event.createSampler _ => true
  | Event.copyFromParent _ => true
  | Event.gatherLabels _ => true
  | Event.labelCuda _ => true
  | Event.forwardPass => true
  | Event.computeLoss => true
  | Event.zeroGrad => true
  | Event.backwardPass => true
  | Event.optimizerStep => true
  | _ => false

/-- The manualSeed events of a trace. -/
def seedEvents (tr : List Event) : List Event :=
  tr.filter fun ev =>
    match ev with
    | Event.manualSeed _ => true
    | _ => false

/-- The name in_feats is not bound in the trainer's scope, so
evaluating it raises a NameError. -/
theorem lookup_in_feats :
    pyLookup trainerScope "in_feats"
      = Except.error (PyError.nameError "in_feats") := rfl

/-- The inference block dies immediately on the unbound name
in_feats, whatever the arguments and inputs are. -/
theorem inferenceBlock_err (args : Args) (inp : TrainerIn) :
    inferenceBlock args inp
      = Except.error (PyError.nameError "in_feats") := by
  unfold inferenceBlock
  rw [lookup_in_feats]

/-- The event part of a trainer's run is always the setup trace
followed by the training loop: the inference block raises before
emitting anything. -/
theorem trainerTrace_fst (rank world : Nat) (args : Args)
    (inp : TrainerIn) :
    (trainerTrace rank world args inp).1
      = trainerPre rank world args inp ++ trainLoop rank args inp := by
  unfold trainerTrace
  by_cases h : rank = 0
  · rw [if_pos h, inferenceBlock_err]
  · rw [if_neg h]

/-- Claim C9: every process, before initializing the process group,
unconditionally writes 127.0.0.1 into MASTER_ADDR and 29501 into
MASTER_PORT; the two environment writes are the only ones and precede
the process-group initialization, for every rank, world size and
backend (no CLI value reaches init_process at all). -/
theorem rendezvous_fixed_local (r w : Nat) (b : String) :
    (∃ rest, initProcessTrace r w b
        = Event.setEnv "MASTER_ADDR" "127.0.0.1"
          :: Event.setEnv "MASTER_PORT" "29501"
          :: Event.initProcessGroup b r w :: rest)
    ∧ (initProcessTrace r w b).filter Event.isSetEnv
        = [Event.setEnv "MASTER_ADDR" "127.0.0.1",
           Event.setEnv "MASTER_PORT" "29501"] :=
  ⟨⟨[Event.setCudaDevice r, Event.manualSeed r, Event.printLaunch r],
    rfl⟩, rfl⟩

/-- Claim C8: the only RNG seeding a process performs uses its rank as
the seed, so it is a fixed value for a fixed rank (independent of
world size and backend, hence identical across runs) and distinct
ranks seed with distinct values. -/
theorem rng_seed_is_rank :
    (∀ (r w : Nat) (b : String),
      seedEvents (initProcessTrace r w b) = [Event.manualSeed r])
    ∧ (∀ (r w : Nat) (b : String) (r2 w2 : Nat) (b2 : String),
        r ≠ r2 →
        seedEvents (initProcessTrace r w b)
          ≠ seedEvents (initProcessTrace r2 w2 b2)) := by
  constructor
  · intro r w b
    rfl
  · intro r w b r2 w2 b2 hne h
    have h1 : seedEvents (initProcessTrace r w b)
        = [Event.manualSeed r] := rfl
    have h2 : seedEvents (initProcessTrace r2 w2 b2)
        = [Event.manualSeed r2] := rfl
    rw [h1, h2] at h
    simp only [List.cons.injEq, Event.manualSeed.injEq, and_true] at h
    exact hne h

/-- Witness for C8 at concrete ranks 0 and 1. -/
theorem rng_seed_is_rank_witness :
    (0 : Nat) ≠ 1
    ∧ seedEvents (initProcessTrace 0 2 "nccl")
        ≠ seedEvents (initProcessTrace 1 2 "nccl") :=
  ⟨by decide, rng_seed_is_rank.2 0 2 "nccl" 1 2 "nccl" (by decide)⟩

/-- Claim C2: the script spawns one trainer process per comma-separated
entry of the gpu flag, and every spawned rank r pins its CUDA device
to r during process initialization, before any training event. -/
theorem spawn_one_proc_per_gpu (args : Args) (inp : TrainerIn) :
    (spawnedProcs args).length = (commaSplit args.gpu).length
    ∧ ∀ r, r ∈ spawnedProcs args →
        ∃ rest, (trainerTrace r (gpuNum args) args inp).1
            = initProcessTrace r (gpuNum args) "nccl" ++ rest
          ∧ Event.setCudaDevice r ∈ initProcessTrace r (gpuNum args) "nccl"
          ∧ ∀ ev ∈ initProcessTrace r (gpuNum args) "nccl",
              ev.isTrainingStep = false := by
  constructor
  · simp [spawnedProcs, gpuNum]
  · intro r _
    refine ⟨[Event.attachStore (basename args.dataset) "shared_mem",
             Event.buildModel (gcnSamplingCtor args inp.nClasses),
             Event.buildOptimizer (adamCtor args),
             Event.modelCuda r,
             Event.wrapDDP r] ++ trainLoop r args inp, ?_, ?_, ?_⟩
    · rw [trainerTrace_fst]
      unfold trainerPre
      rw [List.append_assoc]
    · simp [initProcessTrace]
    · intro ev hev
      simp only [initProcessTrace, List.mem_cons,
        List.not_mem_nil, or_false] at hev
      rcases hev with rfl | rfl | rfl | rfl | rfl | rfl <;> rfl

/-- Witness for C2: rank 0 is among the processes spawned for the
two-entry gpu flag of the concrete arguments, and the conclusion holds
for it. -/
theorem spawn_one_proc_per_gpu_witness :
    (0 ∈ spawnedProcs argsEx)
    ∧ (∃ rest, (trainerTrace 0 (gpuNum argsEx) argsEx inpEx).1
          = initProcessTrace 0 (gpuNum argsEx) "nccl" ++ rest
        ∧ Event.setCudaDevice 0 ∈ initProcessTrace 0 (gpuNum argsEx) "nccl"
        ∧ ∀ ev ∈ initProcessTrace 0 (gpuNum argsEx) "nccl",
            ev.isTrainingStep = false) :=
  ⟨by decide, (spawn_one_proc_per_gpu argsEx inpEx).2 0 (by decide)⟩

/-- storeWrite events. -/
def Event.isStoreMutation : Event → Bool
  | Event.storeWrite _ => true
  | _ => false

/-- Events that acquire a graph, either by attaching to a store or by
building one locally. -/
def Event.isGraphAcquire : Event → Bool
  | Event.attachStore _ _ => true
  | Event.buildGraphLocal => true
  | _ => false

/-- The per-batch computation steps (everything except prints). -/
def Event.isCoreBatchStep : Event → Bool
  | Event.copyFromParent _ => true
  | Event.gatherLabels _ => true
  | Event.labelCuda _ => true
  | Event.forwardPass => true
  | Event.computeLoss => true
  | Event.zeroGrad => true
  | Event.backwardPass => true
  | Event.optimizerStep => true
  | _ => false

/-- Case analysis for membership in a batch trace. -/
theorem mem_batchTrace {ev : Event} {rank e b : Nat}
    (h : ev ∈ batchTrace rank e b) :
    ev ∈ coreBatchEvents rank
    ∨ (rank = 0 ∧ ev = Event.printStepLoss (e + 1) (b + 1)) := by
  unfold batchTrace at h
  rcases List.mem_append.mp h with h | h
  · exact Or.inl h
  · split at h
    · rename_i hc
      exact Or.inr ⟨hc.1, by simpa using h⟩
    · simp at h

/-- Case analysis for membership in an epoch trace. -/
theorem mem_epochTrace {ev : Event} {rank e : Nat} {args : Args}
    {inp : TrainerIn} (h : ev ∈ epochTrace rank args inp e) :
    ev = Event.modelTrain
    ∨ ev = Event.createSampler (trainSamplerCfg args inp.trainMask)
    ∨ (∃ b, b < inp.nTrainBatches e ∧ ev ∈ batchTrace rank e b)
    ∨ (rank = 0 ∧ ev = Event.printEpochTime
        (npMean (((List.range (e + 1)).map inp.epochDur).drop 2))) := by
  unfold epochTrace at h
  rcases List.mem_cons.mp h with h | h
  · exact Or.inl h
  rcases List.mem_cons.mp h with h | h
  · exact Or.inr (Or.inl h)
  rcases List.mem_append.mp h with h | h
  · rcases List.mem_flatMap.mp h with ⟨b, hb, hmem⟩
    exact Or.inr (Or.inr (Or.inl ⟨b, List.mem_range.mp hb, hmem⟩))
  · split at h
    · rename_i hr
      exact Or.inr (Or.inr (Or.inr ⟨hr, by simpa using h⟩))
    · simp at h

/-- Case analysis for membership in the training loop. -/
theorem mem_trainLoop {ev : Event} {rank : Nat} {args : Args}
    {inp : TrainerIn} (h : ev ∈ trainLoop rank args inp) :
    ∃ e, e < epochsBound args ∧ ev ∈ epochTrace rank args inp e := by
  unfold trainLoop at h
  rcases List.mem_flatMap.mp h with ⟨e, he, hmem⟩
  exact ⟨e, List.mem_range.mp he, hmem⟩

/-- Case analysis for membership in the init_process trace. -/
theorem mem_initProcessTrace {ev : Event} {r w : Nat} {b : String}
    (h : ev ∈ initProcessTrace r w b) :
    ev = Event.setEnv "MASTER_ADDR" "127.0.0.1"
    ∨ ev = Event.setEnv "MASTER_PORT" "29501"
    ∨ ev = Event.initProcessGroup b r w
    ∨ ev = Event.setCudaDevice r
    ∨ ev = Event.manualSeed r
    ∨ ev = Event.printLaunch r := by
  simpa [initProcessTrace] using h

/-- Case analysis for membership in the setup trace. -/
theorem mem_trainerPre {ev : Event} {r w : Nat} {args : Args}
    {inp : TrainerIn} (h : ev ∈ trainerPre r w args inp) :
    ev ∈ initProcessTrace r w "nccl"
    ∨ ev = Event.attachStore (basename args.dataset) "shared_mem"
    ∨ ev = Event.buildModel (gcnSamplingCtor args inp.nClasses)
    ∨ ev = Event.buildOptimizer (adamCtor args)
    ∨ ev = Event.modelCuda r
    ∨ ev = Event.wrapDDP r := by
  unfold trainerPre at h
  rcases List.mem_append.mp h with h | h
  · exact Or.inl h
  · simp only [List.mem_cons, List.not_mem_nil, or_false] at h
    tauto

/-- Flat classification of every event a trainer process can emit. -/
theorem mem_trainer_fst_cases {ev : Event} {r w : Nat} {args : Args}
    {inp : TrainerIn} (h : ev ∈ (trainerTrace r w args inp).1) :
    ev ∈ initProcessTrace r w "nccl"
    ∨ ev = Event.attachStore (basename args.dataset) "shared_mem"
    ∨ ev = Event.buildModel (gcnSamplingCtor args inp.nClasses)
    ∨ ev = Event.buildOptimizer (adamCtor args)
    ∨ ev = Event.modelCuda r
    ∨ ev = Event.wrapDDP r
    ∨ ev = Event.modelTrain
    ∨ ev = Event.createSampler (trainSamplerCfg args inp.trainMask)
    ∨ ev ∈ coreBatchEvents r
    ∨ (∃ a b, ev = Event.printStepLoss a b)
    ∨ (∃ v, ev = Event.printEpochTime v) := by
  rw [trainerTrace_fst] at h
  rcases List.mem_append.mp h with h | h
  · rcases mem_trainerPre h with h | h | h | h | h | h <;> tauto
  · rcases mem_trainLoop h with ⟨e, _, hmem⟩
    rcases mem_epochTrace hmem with h | h | ⟨b, _, hb⟩ | ⟨_, h⟩
    · tauto
    · tauto
    · rcases mem_batchTrace hb with h | ⟨_, h⟩
      · tauto
      · exact Or.inr (Or.inr (Or.inr (Or.inr (Or.inr (Or.inr (Or.inr
          (Or.inr (Or.inr (Or.inl ⟨e + 1, b + 1, h⟩)))))))))
    · exact Or.inr (Or.inr (Or.inr (Or.inr (Or.inr (Or.inr (Or.inr
        (Or.inr (Or.inr (Or.inr ⟨_, h⟩)))))))))

/-- Claim C1 (code evaluated at the failing point): on rank 0, after
the epoch loop, the inference block raises NameError on the unbound
name in_feats before any inference work, so no test-accuracy print
ever occurs; the name n_test_samples used by the accuracy print is
unbound as well. -/
theorem inference_never_prints_accuracy (w : Nat) (args : Args)
    (inp : TrainerIn) :
    (trainerTrace 0 w args inp).2 = some (PyError.nameError "in_feats")
    ∧ Event.printTestAccuracy ∉ (trainerTrace 0 w args inp).1
    ∧ pyLookup trainerScope "n_test_samples"
        = Except.error (PyError.nameError "n_test_samples") := by
  refine ⟨?_, ?_, rfl⟩
  · unfold trainerTrace
    rw [if_pos rfl, inferenceBlock_err]
  · intro h
    rcases mem_trainer_fst_cases h with
      h | h | h | h | h | h | h | h | h | ⟨a, b, h⟩ | ⟨v, h⟩
    · rcases mem_initProcessTrace h with h | h | h | h | h | h <;>
        exact Event.noConfusion h
    · exact Event.noConfusion h
    · exact Event.noConfusion h
    · exact Event.noConfusion h
    · exact Event.noConfusion h
    · exact Event.noConfusion h
    · exact Event.noConfusion h
    · exact Event.noConfusion h
    · simp [coreBatchEvents] at h
    · exact Event.noConfusion h
    · exact Event.noConfusion h

/-- Claim C4: each parsed hyperparameter reaches its framework
constructor or loop bound unchanged: feature size, hidden size, layer
count and dropout go into the GCNSampling constructor, learning rate
and weight decay into the Adam constructor, the epoch count is the
loop bound, and batch size and neighbor count go into the training
NeighborSampler call; the constructor calls occur in the trace with
exactly these payloads. -/
theorem hyperparams_unchanged (r w : Nat) (args : Args)
    (inp : TrainerIn) :
    Event.buildModel (gcnSamplingCtor args inp.nClasses)
        ∈ (trainerTrace r w args inp).1
    ∧ Event.buildOptimizer (adamCtor args) ∈ (trainerTrace r w args inp).1
    ∧ (gcnSamplingCtor args inp.nClasses).in_feats = args.feat_size
    ∧ (gcnSamplingCtor args inp.nClasses).n_hidden = args.n_hidden
    ∧ (gcnSamplingCtor args inp.nClasses).n_layers = args.n_layers
    ∧ (gcnSamplingCtor args inp.nClasses).dropout = args.dropout
    ∧ (adamCtor args).lr = args.lr
    ∧ (adamCtor args).weight_decay = args.weight_decay
    ∧ epochsBound args = args.n_epochs
    ∧ (trainSamplerCfg args inp.trainMask).batchSize = args.batch_size
    ∧ (trainSamplerCfg args inp.trainMask).expandFactor
        = args.num_neighbors := by
  refine ⟨?_, ?_, rfl, rfl, rfl, rfl, rfl, rfl, rfl, rfl, rfl⟩
  · rw [trainerTrace_fst]
    apply List.mem_append_left
    simp [trainerPre, initProcessTrace]
  · rw [trainerTrace_fst]
    apply List.mem_append_left
    simp [trainerPre, initProcessTrace]

/-- Claim C5: within every mini-batch, the computation steps are, in
this order and on the process's own device: copy the node flow from
the parent graph, gather the labels of the final-layer parent node
ids (and move them to the GPU), forward pass, cross-entropy loss,
gradient zeroing, backward pass, optimizer step; and each mini-batch
the sampler yields contributes its steps to the epoch trace. -/
theorem batch_step_order (rank : Nat) (args : Args) (inp : TrainerIn)
    (epoch b : Nat) :
    (batchTrace rank epoch b).filter Event.isCoreBatchStep
        = [Event.copyFromParent rank,
           Event.gatherLabels (-1),
           Event.labelCuda rank,
           Event.forwardPass,
           Event.computeLoss,
           Event.zeroGrad,
           Event.backwardPass,
           Event.optimizerStep]
    ∧ (b < inp.nTrainBatches epoch →
        ∀ ev ∈ batchTrace rank epoch b,
          ev ∈ epochTrace rank args inp epoch) := by
  constructor
  · unfold batchTrace coreBatchEvents
    split <;> rfl
  · intro hb ev hev
    unfold epochTrace
    apply List.mem_cons_of_mem
    apply List.mem_cons_of_mem
    apply List.mem_append_left
    exact List.mem_flatMap.mpr ⟨b, List.mem_range.mpr hb, hev⟩

/-- Witness for C5 at batch 0 of epoch 0 on rank 0. -/
theorem batch_step_order_witness :
    0 < inpEx.nTrainBatches 0
    ∧ ∀ ev ∈ batchTrace 0 0 0, ev ∈ epochTrace 0 argsEx inpEx 0 :=
  ⟨by decide, (batch_step_order 0 argsEx inpEx 0 0).2 (by decide)⟩

/-- Claim C7: the trainer's only graph acquisition is attaching to the
shared-memory store under the basename of the dataset path, and no
event of any trainer trace writes to the store or builds a graph
locally. -/
theorem shared_store_readonly (r w : Nat) (args : Args)
    (inp : TrainerIn) :
    Event.attachStore (basename args.dataset) "shared_mem"
        ∈ (trainerTrace r w args inp).1
    ∧ (∀ ev ∈ (trainerTrace r w args inp).1,
        ev.isStoreMutation = false)
    ∧ (∀ ev ∈ (trainerTrace r w args inp).1,
        ev.isGraphAcquire = true →
          ev = Event.attachStore (basename args.dataset) "shared_mem") := by
  refine ⟨?_, ?_, ?_⟩
  · rw [trainerTrace_fst]
    apply List.mem_append_left
    simp [trainerPre, initProcessTrace]
  · intro ev hev
    rcases mem_trainer_fst_cases hev with
      h | h | h | h | h | h | h | h | h | ⟨a, b, h⟩ | ⟨v, h⟩
    · rcases mem_initProcessTrace h with h | h | h | h | h | h <;>
        (subst h; rfl)
    all_goals first
      | (subst h; rfl)
      | (simp only [coreBatchEvents, List.mem_cons,
          List.not_mem_nil, or_false] at h
         rcases h with h | h | h | h | h | h | h | h <;> (subst h; rfl))
  · intro ev hev hacq
    rcases mem_trainer_fst_cases hev with
      h | h | h | h | h | h | h | h | h | ⟨a, b, h⟩ | ⟨v, h⟩
    · rcases mem_initProcessTrace h with h | h | h | h | h | h <;>
        (subst h; exact absurd hacq (by simp [Event.isGraphAcquire]))
    · exact h
    all_goals first
      | (subst h; exact absurd hacq (by simp [Event.isGraphAcquire]))
      | (simp only [coreBatchEvents, List.mem_cons,
          List.not_mem_nil, or_false] at h
         rcases h with h | h | h | h | h | h | h | h <;>
           (subst h; exact absurd hacq (by simp [Event.isGraphAcquire])))

/-- Witness for C7 at concrete inputs, on the modelTrain event and on
the attachStore event. -/
theorem shared_store_readonly_witness :
    (Event.modelTrain ∈ (trainerTrace 0 2 argsEx inpEx).1
      ∧ Event.modelTrain.isStoreMutation = false)
    ∧ (Event.attachStore (basename argsEx.dataset) "shared_mem").isGraphAcquire
        = true
    ∧ Event.attachStore (basename argsEx.dataset) "shared_mem"
        = Event.attachStore (basename argsEx.dataset) "shared_mem" := by
  have hmem : Event.modelTrain ∈ (trainerTrace 0 2 argsEx inpEx).1 := by
    rw [trainerTrace_fst]
    apply List.mem_append_right
    simp [trainLoop, epochTrace, epochsBound, argsEx]
  have hmem2 : Event.attachStore (basename argsEx.dataset) "shared_mem"
      ∈ (trainerTrace 0 2 argsEx inpEx).1 :=
    (shared_store_readonly 0 2 argsEx inpEx).1
  exact ⟨⟨hmem, (shared_store_readonly 0 2 argsEx inpEx).2.1 _ hmem⟩,
    rfl, (shared_store_readonly 0 2 argsEx inpEx).2.2 _ hmem2 rfl⟩

/-- Claim C10: the step-loss print and the epoch-time print happen
only on rank 0; the epoch-time value printed after epoch e is the
mean of the recorded durations with the first two dropped, which for
the first two epochs is the mean of the empty sequence. -/
theorem rank0_only_reporting (rank : Nat) (args : Args)
    (inp : TrainerIn) (e : Nat) :
    (∀ v, Event.printEpochTime v ∈ epochTrace rank args inp e →
        rank = 0
        ∧ v = npMean (((List.range (e + 1)).map inp.epochDur).drop 2)
        ∧ (e < 2 → v = npMean []))
    ∧ (∀ a b, Event.printStepLoss a b ∈ epochTrace rank args inp e →
        rank = 0) := by
  constructor
  · intro v h
    rcases mem_epochTrace h with h | h | ⟨b, _, hb⟩ | ⟨hr, hv⟩
    · exact Event.noConfusion h
    · exact Event.noConfusion h
    · rcases mem_batchTrace hb with h | ⟨_, h⟩
      · simp [coreBatchEvents] at h
      · exact Event.noConfusion h
    · have h2 : v = npMean (((List.range (e + 1)).map inp.epochDur).drop 2) := by
        injection hv
      refine ⟨hr, h2, ?_⟩
      intro he
      have hnil : (((List.range (e + 1)).map inp.epochDur).drop 2) = [] := by
        apply List.drop_eq_nil_of_le
        simp only [List.length_map, List.length_range]
        omega
      rw [h2, hnil]
  · intro a b h
    rcases mem_epochTrace h with h | h | ⟨c, _, hb⟩ | ⟨hr, _⟩
    · exact Event.noConfusion h
    · exact Event.noConfusion h
    · rcases mem_batchTrace hb with h | ⟨hr, _⟩
      · simp [coreBatchEvents] at h
      · exact hr
    · exact hr

/-- Witness for C10: the epoch-time print of epoch 0 on rank 0 at
concrete inputs carries the mean of the empty sequence. -/
theorem rank0_only_reporting_witness :
    (Event.printEpochTime
        (npMean (((List.range 1).map inpEx.epochDur).drop 2))
      ∈ epochTrace 0 argsEx inpEx 0)
    ∧ ((0 : Nat) = 0
        ∧ npMean (((List.range 1).map inpEx.epochDur).drop 2)
            = npMean (((List.range (0 + 1)).map inpEx.epochDur).drop 2)
        ∧ (0 < 2 →
            npMean (((List.range 1).map inpEx.epochDur).drop 2)
              = npMean [])) := by
  have hmem : Event.printEpochTime
      (npMean (((List.range 1).map inpEx.epochDur).drop 2))
      ∈ epochTrace 0 argsEx inpEx 0 := by
    unfold epochTrace
    apply List.mem_cons_of_mem
    apply List.mem_cons_of_mem
    apply List.mem_append_right
    rw [if_pos rfl]
    simp
  exact ⟨hmem, (rank0_only_reporting 0 argsEx inpEx 0).1 _ hmem⟩

/-- Claim C3 (amended): every epoch builds its sampler with seed
nodes exactly the indices at which the training mask is nonzero,
converted to 64-bit integers, shuffled, with the neighbor count as
expansion factor, n_layers+1 hops and in-neighbors; and a node whose
training-mask entry is zero is never a seed index.  (Test- or
validation-mask nodes are excluded only through this: a node nonzero
in both the training and the test mask is still a seed.) -/
theorem train_sampler_seeds (rank : Nat) (args : Args) (inp : TrainerIn)
    (e : Nat) :
    Event.createSampler (trainSamplerCfg args inp.trainMask)
        ∈ epochTrace rank args inp e
    ∧ (trainSamplerCfg args inp.trainMask).seedNodes
        = (nonzeroIdx inp.trainMask).map int64ofNat
    ∧ (trainSamplerCfg args inp.trainMask).shuffle = true
    ∧ (trainSamplerCfg args inp.trainMask).expandFactor
        = args.num_neighbors
    ∧ (trainSamplerCfg args inp.trainMask).numHops = args.n_layers + 1
    ∧ (trainSamplerCfg args inp.trainMask).neighborType = "in"
    ∧ ∀ i, inp.trainMask.getD i 0 = 0 → i ∉ nonzeroIdx inp.trainMask := by
  refine ⟨?_, rfl, rfl, rfl, rfl, rfl, ?_⟩
  · unfold epochTrace
    apply List.mem_cons_of_mem
    exact List.mem_cons_self _ _
  · intro i hi hmem
    rw [nonzeroIdx, List.mem_filter] at hmem
    exact of_decide_eq_true hmem.2 hi

/-- Witness for C3 (amended): node 1 of the concrete training mask has
entry zero and is not a seed index. -/
theorem train_sampler_seeds_witness :
    inpEx.trainMask.getD 1 0 = 0 ∧ 1 ∉ nonzeroIdx inpEx.trainMask :=
  ⟨by decide,
   (train_sampler_seeds 0 argsEx inpEx 0).2.2.2.2.2.2 1 (by decide)⟩

/-- Counterexample to C3 as stated: with a training mask and a test
mask that are both nonzero at node 0 (nothing in the script forbids
this), node 0 is a test-mask node and is a training seed. -/
theorem train_sampler_seeds_counterexample :
    inpOverlap.testMask.getD 0 0 ≠ 0
    ∧ int64ofNat 0 ∈ (trainSamplerCfg argsEx inpOverlap.trainMask).seedNodes := by
  exact ⟨by decide, by decide⟩

/-- The framework and library calls the trainer makes, in program
order (lines 26-125), none of which sits inside a try/except. -/
def trainerCallSeq : List String :=
  ["dist.init_process_group", "torch.cuda.set_device",
   "torch.manual_seed", "create_graph_from_store", "get_labels",
   "get_masks", "GCNSampling", "CrossEntropyLoss", "Adam",
   "model.cuda", "DistributedDataParallel", "NeighborSampler",
   "copy_from_parent", "layer_parent_nid", "label.cuda", "model.forward",
   "loss_fcn", "zero_grad", "loss.backward", "optimizer.step",
   "GCNInfer", "infer_model.forward"]

/-- Sequencing with no handlers: the first exception aborts the run
and is returned unhandled. -/
def runCalls (f : String → Except PyError Unit) :
    List String → Except PyError Unit
  | [] => Except.ok ()
  | c :: cs =>
    match f c with
    | Except.error e => Except.error e
    | Except.ok _ => runCalls f cs

/-- If every call before c succeeds and c raises e, the run of a call
list ending in c followed by anything returns e. -/
theorem runCalls_first_error (f : String → Except PyError Unit)
    (pre : List String) (c : String) (post : List String) (e : PyError)
    (hpre : ∀ c2 ∈ pre, f c2 = Except.ok ())
    (hc : f c = Except.error e) :
    runCalls f (pre ++ c :: post) = Except.error e := by
  induction pre with
  | nil => simp [runCalls, hc]
  | cons a as ih =>
    have ha : f a = Except.ok () := hpre a (List.mem_cons_self a as)
    simp only [List.cons_append, runCalls, ha]
    exact ih fun c2 h2 => hpre c2 (List.mem_cons_of_mem a h2)

/-- Claim C6: the trainer installs no exception handler, so whichever
call in its sequence is the first to raise, that exception is the
outcome of the whole trainer run. -/
theorem errors_propagate_uncaught (f : String → Except PyError Unit)
    (pre : List String) (c : String) (post : List String) (e : PyError)
    (hseq : trainerCallSeq = pre ++ c :: post)
    (hpre : ∀ c2 ∈ pre, f c2 = Except.ok ())
    (hc : f c = Except.error e) :
    runCalls f trainerCallSeq = Except.error e := by
  rw [hseq]
  exact runCalls_first_error f pre c post e hpre hc

/-- A behaviour in which the data-loading call get_labels raises. -/
def failAtLabels : String → Except PyError Unit := fun c =>
  if c = "get_labels" then Except.error (PyError.runtimeErr "io")
  else Except.ok ()

/-- Witness for C6: with get_labels raising and everything before it
succeeding, the trainer run ends with that exact exception. -/
theorem errors_propagate_uncaught_witness :
    runCalls failAtLabels trainerCallSeq
      = Except.error (PyError.runtimeErr "io") :=
  errors_propagate_uncaught failAtLabels
    ["dist.init_process_group", "torch.cuda.set_device",
     "torch.manual_seed", "create_graph_from_store"]
    "get_labels"
    ["get_masks", "GCNSampling", "CrossEntropyLoss", "Adam",
     "model.cuda", "DistributedDataParallel", "NeighborSampler",
     "copy_from_parent", "layer_parent_nid", "label.cuda", "model.forward",
     "loss_fcn", "zero_grad", "loss.backward", "optimizer.step",
     "GCNInfer", "infer_model.forward"]
    (PyError.runtimeErr "io") rfl
    (by intro c2 h2
        simp only [List.mem_cons, List.not_mem_nil, or_false] at h2
        rcases h2 with rfl | rfl | rfl | rfl <;> rfl)
    rfl

end GcnClient
